import Mathlib

/-!
Shallow embedding of the location-analysis and scoring engine of the
geo-survey backend (GIS analysis service, analyzeLocation and its
helpers).  Numbers are modelled as exact rationals; the spatial store
and the external routing service are modelled by the data they hand the
service.  The JavaScript source is followed step by step:
centroid lookup, Mapbox-token check, isochrone resolution with the
1000 m buffer fallback, POI aggregation by raw category key, supportive
business extraction, nearest-facility lookups, FTL (tank) overlap with
the 9 % threshold, and the five capped sub-scores plus the rounded
composite score.
-/

/-- JavaScript rounding as in Math.round: round half up, that is the
floor of the value plus one half. -/
def jsRound (x : ℚ) : ℤ := ⌊x + 1/2⌋

/-- Models parseFloat(v.toFixed(1)) on a nonnegative rational: round to
one decimal place, half up. -/
def toFixed1 (x : ℚ) : ℚ := (jsRound (x * 10) : ℚ) / 10

/-- Models parseFloat(v.toFixed(2)) on a nonnegative rational: round to
two decimal places, half up. -/
def toFixed2 (x : ℚ) : ℚ := (jsRound (x * 100) : ℚ) / 100

/-- Models parseFloat(v.toFixed(3)) on a nonnegative rational: round to
three decimal places, half up. -/
def toFixed3 (x : ℚ) : ℚ := (jsRound (x * 1000) : ℚ) / 1000

/-- Constant ISO_MINUTES from the source (walking-time budget of the
isochrone request). -/
def ISO_MINUTES : ℕ := 10

/-- Constant DENOISE from the source (denoise factor of the isochrone
request). -/
def DENOISE : ℕ := 1

/-- Constant FALLBACK_WALK_BUFFER_M from the source: radius in metres
of the circular fallback buffer. -/
def FALLBACK_WALK_BUFFER_M : ℚ := 1000

/-- Constant SUPPORTIVE_CATEGORIES from the source. -/
def SUPPORTIVE_CATEGORIES : List String := ["Retail", "Health And Medical", "Accommodation"]

/-- GeoJSON-style geometry as the service sees it, extended with the
two PostGIS operations the fallback query applies to a stored geometry:
ST_Transform to a spatial reference id and ST_Buffer by a radius.  The
symbolic constructors keep the query structure visible so that the
frame in which the buffer is computed can be stated. -/
inductive Geom where
  | point : ℚ → ℚ → Geom
  | polygon : List (List (ℚ × ℚ)) → Geom
  | multiPolygon : List (List (List (ℚ × ℚ))) → Geom
  | lineString : List (ℚ × ℚ) → Geom
  | transform : ℤ → Geom → Geom
  | buffer : Geom → ℚ → Geom
deriving DecidableEq

/-- The GeoJSON type tag of a geometry, as the source inspects it via
isoGeometry.type.  ST_Transform preserves the geometry type; ST_Buffer
of a point with a positive radius yields a polygon. -/
def Geom.typeName : Geom → String
  | .point _ _ => "Point"
  | .polygon _ => "Polygon"
  | .multiPolygon _ => "MultiPolygon"
  | .lineString _ => "LineString"
  | .transform _ g => g.typeName
  | .buffer _ _ => "Polygon"

/-- The fallback buffer query of the source:
ST_Transform(ST_Buffer(ST_Transform(geom, 32643), radius), 4326) —
the stored geometry is projected to the metric frame 32643, buffered
by the radius in metres there, and the result is transformed back to
the geographic frame 4326. -/
def fallbackBufferGeom (g : Geom) (radius : ℚ) : Geom :=
  Geom.transform 4326 (Geom.buffer (Geom.transform 32643 g) radius)

/-- One feature of the isochrone response body. -/
structure RoutingFeature where
  geometry : Geom
deriving DecidableEq

/-- The body of a routing-service response together with its HTTP
success flag (isoResponse.ok); features models isoData.features, with
the empty list standing for an absent or empty array. -/
structure RoutingResponse where
  ok : Bool
  features : List RoutingFeature
deriving DecidableEq

/-- Outcome of the fetch of the isochrone URL: either the network call
itself fails, or a response arrives. -/
inductive RoutingOutcome where
  | networkFailure : RoutingOutcome
  | response : RoutingResponse → RoutingOutcome
deriving DecidableEq

/-- Result of the reachability resolution: the chosen geometry and
whether the fallback path produced it. -/
structure ResolveResult where
  geometry : Geom
  usedFallback : Bool
deriving DecidableEq

/-- The geometry-type validation of the source: the isochrone geometry
must be a Polygon or a MultiPolygon. -/
def isPolygonal (t : String) : Bool := t == "Polygon" || t == "MultiPolygon"

/-- Steps 2 of the source inside the try/catch: use the first feature
of a successful response when its geometry is polygonal; on a network
failure, a non-ok status, an absent or empty feature list, or a
non-polygonal geometry, fall back to the fixed-radius buffer around
the stored centroid geometry. -/
def resolveIsochrone (centerGeom : Geom) (outcome : RoutingOutcome) : ResolveResult :=
  match outcome with
  | .networkFailure => ⟨fallbackBufferGeom centerGeom FALLBACK_WALK_BUFFER_M, true⟩
  | .response r =>
    if r.ok then
      match r.features with
      | [] => ⟨fallbackBufferGeom centerGeom FALLBACK_WALK_BUFFER_M, true⟩
      | f :: _ =>
        if isPolygonal f.geometry.typeName then ⟨f.geometry, false⟩
        else ⟨fallbackBufferGeom centerGeom FALLBACK_WALK_BUFFER_M, true⟩
    else ⟨fallbackBufferGeom centerGeom FALLBACK_WALK_BUFFER_M, true⟩

/-- One row of the POI query: the raw category column (NULL allowed)
and the point coordinates. -/
structure POIRow where
  category : Option String
  lat : ℚ
  lon : ℚ
deriving DecidableEq

/-- The object key under which a POI row is grouped.  JavaScript
coerces a property key to a string, so a NULL category is grouped
under the key "null". -/
def keyOf : Option String → String
  | none => "null"
  | some s => s

/-- One step of building categoryMap: append the row to the entry of
its key, or create a new entry at the end (JavaScript object keys keep
insertion order). -/
def insertPOI (m : List (String × List POIRow)) (p : POIRow) : List (String × List POIRow) :=
  match m with
  | [] => [(keyOf p.category, [p])]
  | (k, ps) :: rest =>
    if k = keyOf p.category then (k, ps ++ [p]) :: rest
    else (k, ps) :: insertPOI rest p

/-- The categoryMap of the source: group the POI rows by their raw
category key, in insertion order. -/
def buildCategoryMap (pois : List POIRow) : List (String × List POIRow) :=
  pois.foldl insertPOI []

/-- One entry of poi_breakdown. -/
structure CategoryEntry where
  category : String
  count : ℕ
  percent : ℚ
  locations : List (ℚ × ℚ)
deriving DecidableEq

/-- The poi_breakdown entry made from one categoryMap group. -/
def entryOfGroup (totalPois : ℕ) (g : String × List POIRow) : CategoryEntry :=
  { category := g.1
    count := g.2.length
    percent := toFixed2 ((g.2.length : ℚ) / (totalPois : ℚ) * 100)
    locations := g.2.map (fun p => (p.lat, p.lon)) }

/-- The descending-count comparator of the source sort
(a, b) => b.count - a.count. -/
def byCountDesc (a b : CategoryEntry) : Prop := b.count ≤ a.count

instance : DecidableRel byCountDesc := fun a b => Nat.decLe b.count a.count

/-- poi_breakdown of the source: one entry per categoryMap group, with
count, two-decimal percent of the total, and member locations, sorted
descending by count (a stable sort, as in current JavaScript
engines). -/
def poiBreakdownOf (pois : List POIRow) : List CategoryEntry :=
  ((buildCategoryMap pois).map (entryOfGroup pois.length)).insertionSort byCountDesc

/-- One entry of supportive_businesses. -/
structure SupportiveEntry where
  category : String
  count : ℕ
  percent : ℚ
deriving DecidableEq

/-- The supportive-category test of the source filter. -/
def isSupportive (e : CategoryEntry) : Bool := SUPPORTIVE_CATEGORIES.contains e.category

/-- The supportiveTotal the source recomputes inside the map: the sum
of the counts of the supportive entries of poi_breakdown. -/
def supportiveTotalOf (breakdown : List CategoryEntry) : ℕ :=
  ((breakdown.filter isSupportive).map (fun e => e.count)).sum

/-- supportive_businesses of the source: the supportive entries of
poi_breakdown with their percent recomputed against the supportive
total. -/
def supportiveBusinessesOf (breakdown : List CategoryEntry) : List SupportiveEntry :=
  (breakdown.filter isSupportive).map (fun item =>
    { category := item.category
      count := item.count
      percent := toFixed2 ((item.count : ℚ) / (supportiveTotalOf breakdown : ℚ) * 100) })

/-- One row of a nearest-facility query result: the geodesic distance
in metres and the coordinates of the feature. -/
structure FacilityRow where
  dist_m : ℚ
  lat : ℚ
  lon : ℚ
deriving DecidableEq

/-- The message with which the spatial store rejects a query naming a
relation that does not exist (standard SQL behaviour of the store; the
service has no local handler for it, so it reaches the outer catch). -/
def relationMissingMsg (tableName : String) : String :=
  "relation " ++ tableName ++ " does not exist"

/-- The table-name allowlist of getNearestFeature. -/
def validTables : List String := ["ts_policestations", "ts_hospitals", "ts_main_roads"]

/-- getNearestFeature of the source.  The second argument models the
state of the facility table in the store: none stands for a missing
relation, in which case the query itself raises and the error
propagates (there is no local try/catch); some rows is the result set
of the distance-ordered LIMIT 1 query, so the head, when present, is
the nearest feature, and an empty result set yields null. -/
def getNearestFeature (tableName : String) (table : Option (List FacilityRow)) :
    Except String (Option FacilityRow) :=
  if validTables.contains tableName then
    match table with
    | none => Except.error (relationMissingMsg tableName)
    | some [] => Except.ok none
    | some (r :: _) => Except.ok (some r)
  else Except.error ("Invalid table name: " ++ tableName)

/-- The single row of the FTL aggregate query:
COALESCE(SUM(intersection_area), 0) and MAX(total_area), the latter
NULL (none) when no tank intersects the isochrone. -/
structure FtlRow where
  total_intersection : ℚ
  isochrone_area : Option ℚ
deriving DecidableEq

/-- The 9 % threshold rule of the source:
rawPercentage > 9 ? Math.round(rawPercentage) : 0. -/
def thresholdFtl (raw : ℚ) : ℤ := if raw > 9 then jsRound raw else 0

/-- ftlPercentage of the source: 0 unless the query returned a row
whose isochrone_area is positive (a NULL area compares false), else
the thresholded rounded percentage of the intersection. -/
def ftlPercentageOf : List FtlRow → ℤ
  | [] => 0
  | r :: _ =>
    match r.isochrone_area with
    | none => 0
    | some area =>
      if 0 < area then thresholdFtl (r.total_intersection / area * 100) else 0

/-- poiScore of the source: min(30, (totalPois / 100) * 30). -/
def poiScoreOf (totalPois : ℕ) : ℚ := min 30 ((totalPois : ℚ) / 100 * 30)

/-- One summand of amenityScore: max(0, capKm - dist_m / 1000) for a
present facility, 0 for an absent one. -/
def facilityComponent (capKm : ℚ) : Option FacilityRow → ℚ
  | none => 0
  | some f => max 0 (capKm - f.dist_m / 1000)

/-- amenityScore of the source: police and hospital capped at 10 km,
main road at 5 km, the sum clamped at 25. -/
def amenityScoreOf (police hospital road : Option FacilityRow) : ℚ :=
  min 25 (facilityComponent 10 police + facilityComponent 10 hospital + facilityComponent 5 road)

/-- ftlScore of the source: 20 when ftlPercentage is 0, else
max(0, 20 - ftlPercentage / 5). -/
def ftlScoreOf (ftlPercentage : ℤ) : ℚ :=
  if ftlPercentage = 0 then 20 else max 0 (20 - (ftlPercentage : ℚ) / 5)

/-- businessScore of the source: min(15, (supportiveTotal / 20) * 15). -/
def businessScoreOf (supportiveTotal : ℕ) : ℚ :=
  min 15 ((supportiveTotal : ℚ) / 20 * 15)

/-- accessibilityScore of the source:
min(10, (categoryCount / 15) * 10). -/
def accessibilityScoreOf (categoryCount : ℕ) : ℚ :=
  min 10 ((categoryCount : ℚ) / 15 * 10)

/-- score_breakdown of the result. -/
structure ScoreBreakdown where
  poi_score : ℚ
  amenity_score : ℚ
  ftl_score : ℚ
  business_score : ℚ
  accessibility_score : ℚ
deriving DecidableEq

/-- The reported score_breakdown of the source: each sub-score rounded
to one decimal and clamped once more at its maximum. -/
def scoreBreakdownOf (totalPois : ℕ) (police hospital road : Option FacilityRow)
    (ftlPercentage : ℤ) (supportiveTotal categoryCount : ℕ) : ScoreBreakdown :=
  { poi_score := min 30 (toFixed1 (poiScoreOf totalPois))
    amenity_score := min 25 (toFixed1 (amenityScoreOf police hospital road))
    ftl_score := min 20 (toFixed1 (ftlScoreOf ftlPercentage))
    business_score := min 15 (toFixed1 (businessScoreOf supportiveTotal))
    accessibility_score := min 10 (toFixed1 (accessibilityScoreOf categoryCount)) }

/-- developmentScore of the source: the Math.round of the sum of the
five unrounded sub-scores. -/
def developmentScoreOf (totalPois : ℕ) (police hospital road : Option FacilityRow)
    (ftlPercentage : ℤ) (supportiveTotal categoryCount : ℕ) : ℤ :=
  jsRound (poiScoreOf totalPois + amenityScoreOf police hospital road +
    ftlScoreOf ftlPercentage + businessScoreOf supportiveTotal +
    accessibilityScoreOf categoryCount)

/-- map_data of the result. -/
structure MapData where
  isochrone_geometry : Geom
  poi_locations : List CategoryEntry
  nearest_police : Option FacilityRow
  nearest_hospital : Option FacilityRow
  nearest_road : Option FacilityRow
  tanks_geometry : Option Geom
deriving DecidableEq

/-- The analysis result of the source (analysis_date, a wall-clock
timestamp, is not modelled). -/
structure AnalysisResult where
  village : String
  survey_number : String
  latitude : ℚ
  longitude : ℚ
  total_pois : ℕ
  poi_breakdown : List CategoryEntry
  distance_to_police : Option ℚ
  distance_to_hospital : Option ℚ
  distance_to_main_road : Option ℚ
  supportive_businesses : List SupportiveEntry
  ftl_zone_percentage : ℤ
  development_score : ℤ
  score_breakdown : ScoreBreakdown
  used_fallback : Bool
  map_data : MapData
deriving DecidableEq

/-- The data the spatial store holds for one analysis request:
the centroid row matching (village, surveyno) as (longitude,
latitude) when one exists; the POI rows intersecting a given
geometry; the three facility tables (none = the relation is missing);
the FTL aggregate rows for a given geometry; and the tank GeoJSON for
a given geometry (none = NULL json_agg). -/
structure StoreData where
  centroid : Option (ℚ × ℚ)
  poisIntersecting : Geom → List POIRow
  policeTable : Option (List FacilityRow)
  hospitalTable : Option (List FacilityRow)
  roadTable : Option (List FacilityRow)
  ftlRows : Geom → List FtlRow
  tanksGeoJSON : Geom → Option Geom

/-- Everything one call of analyzeLocation consumes: the request
arguments, the MAPBOX_TOKEN environment variable, the outcome of the
isochrone fetch, and the spatial store. -/
structure AnalysisInput where
  village : String
  surveyNumber : String
  mapboxToken : Option String
  routing : RoutingOutcome
  store : StoreData

/-- The not-found message of the source. -/
def noMatchMsg : String :=
  "No matching survey centroid found. Check village and survey number."

/-- The missing-token message of the source. -/
def tokenMissingMsg : String :=
  "Mapbox token not configured. Please set MAPBOX_TOKEN in environment variables."

/-- Steps 3 to 8 of the source once the centroid, the token and the
three facility lookups are in hand: resolve the isochrone, aggregate
the POIs, compute the FTL percentage and the scores, and assemble the
returned object. -/
def assembleResult (inp : AnalysisInput) (lon lat : ℚ)
    (police hospital road : Option FacilityRow) : AnalysisResult :=
  let res := resolveIsochrone (Geom.point lon lat) inp.routing
  let pois := inp.store.poisIntersecting res.geometry
  let breakdown := poiBreakdownOf pois
  let supportive := supportiveBusinessesOf breakdown
  let supportiveTotal := (supportive.map (fun b => b.count)).sum
  let ftlPercentage := ftlPercentageOf (inp.store.ftlRows res.geometry)
  let categoryCount := (buildCategoryMap pois).length
  { village := inp.village
    survey_number := inp.surveyNumber
    latitude := lat
    longitude := lon
    total_pois := pois.length
    poi_breakdown := breakdown
    distance_to_police := police.map (fun f => toFixed3 (f.dist_m / 1000))
    distance_to_hospital := hospital.map (fun f => toFixed3 (f.dist_m / 1000))
    distance_to_main_road := road.map (fun f => toFixed3 (f.dist_m / 1000))
    supportive_businesses := supportive
    ftl_zone_percentage := ftlPercentage
    development_score :=
      developmentScoreOf pois.length police hospital road ftlPercentage
        supportiveTotal categoryCount
    score_breakdown :=
      scoreBreakdownOf pois.length police hospital road ftlPercentage
        supportiveTotal categoryCount
    used_fallback := res.usedFallback
    map_data :=
      { isochrone_geometry := res.geometry
        poi_locations := breakdown
        nearest_police := police
        nearest_hospital := hospital
        nearest_road := road
        tanks_geometry := inp.store.tanksGeoJSON res.geometry } }

/-- analyzeLocation of the source.  Any raised error is caught by the
outer catch and returned as an error object, modelled by the error arm
of Except.  The centroid lookup failing yields the not-found error;
an absent MAPBOX_TOKEN raises the configuration error before the
isochrone is requested; each facility lookup can raise when its
relation is missing; all remaining steps are total.  (The three
facility lookups are the only fallible steps after the token check, so
sequencing them first is observationally the order of the source.) -/
def analyzeLocation (inp : AnalysisInput) : Except String AnalysisResult :=
  match inp.store.centroid with
  | none => Except.error noMatchMsg
  | some (lon, lat) =>
    match inp.mapboxToken with
    | none => Except.error tokenMissingMsg
    | some _ =>
      match getNearestFeature "ts_policestations" inp.store.policeTable with
      | Except.error e => Except.error e
      | Except.ok police =>
        match getNearestFeature "ts_hospitals" inp.store.hospitalTable with
        | Except.error e => Except.error e
        | Except.ok hospital =>
          match getNearestFeature "ts_main_roads" inp.store.roadTable with
          | Except.error e => Except.error e
          | Except.ok road => Except.ok (assembleResult inp lon lat police hospital road)

theorem analyzeLocation_ok_iff (inp : AnalysisInput) (r : AnalysisResult) :
    analyzeLocation inp = Except.ok r ↔
      ∃ lon lat tok police hospital road,
        inp.store.centroid = some (lon, lat) ∧
        inp.mapboxToken = some tok ∧
        getNearestFeature "ts_policestations" inp.store.policeTable = Except.ok police ∧
        getNearestFeature "ts_hospitals" inp.store.hospitalTable = Except.ok hospital ∧
        getNearestFeature "ts_main_roads" inp.store.roadTable = Except.ok road ∧
        r = assembleResult inp lon lat police hospital road := by
  unfold analyzeLocation
  cases hc : inp.store.centroid with
  | none => simp
  | some c =>
    obtain ⟨lon, lat⟩ := c
    cases ht : inp.mapboxToken with
    | none => simp
    | some tok =>
      cases hp : getNearestFeature "ts_policestations" inp.store.policeTable with
      | error e => simp [hp]
      | ok police =>
        cases hh : getNearestFeature "ts_hospitals" inp.store.hospitalTable with
        | error e => simp [hp, hh]
        | ok hospital =>
          cases hr : getNearestFeature "ts_main_roads" inp.store.roadTable with
          | error e => simp [hp, hh, hr]
          | ok road =>
            simp only [hp, hh, hr, Except.ok.injEq]
            constructor
            · rintro rfl
              exact ⟨lon, lat, tok, police, hospital, road, rfl, rfl, rfl, rfl, rfl, rfl⟩
            · rintro ⟨l1, l2, t1, p1, h1, r1, hcc, htt, hpp, hhh, hrr, hres⟩
              obtain ⟨e1, e2⟩ : lon = l1 ∧ lat = l2 := by simpa using hcc
              subst e1
              subst e2
              subst hpp
              subst hhh
              subst hrr
              exact hres.symm

/-- Total number of rows held in a category map. -/
def groupSizes (m : List (String × List POIRow)) : ℕ :=
  (m.map (fun g => g.2.length)).sum

theorem groupSizes_insertPOI (m : List (String × List POIRow)) (p : POIRow) :
    groupSizes (insertPOI m p) = groupSizes m + 1 := by
  induction m with
  | nil => simp [insertPOI, groupSizes]
  | cons g rest ih =>
    obtain ⟨k, ps⟩ := g
    by_cases h : k = keyOf p.category
    · simp [insertPOI, h, groupSizes]
      omega
    · simp only [insertPOI, if_neg h]
      simp only [groupSizes, List.map_cons, List.sum_cons] at ih ⊢
      omega

theorem groupSizes_foldl (l : List POIRow) :
    ∀ m, groupSizes (List.foldl insertPOI m l) = groupSizes m + l.length := by
  induction l with
  | nil => intro m; simp
  | cons p t ih =>
    intro m
    simp only [List.foldl_cons, ih, groupSizes_insertPOI, List.length_cons]
    omega

theorem sum_counts_poiBreakdown (pois : List POIRow) :
    ((poiBreakdownOf pois).map (fun e => e.count)).sum = pois.length := by
  have hperm : (poiBreakdownOf pois).Perm
      ((buildCategoryMap pois).map (entryOfGroup pois.length)) :=
    List.perm_insertionSort _ _
  rw [(hperm.map (fun e => e.count)).sum_eq, List.map_map]
  have hcomp : ((fun e : CategoryEntry => e.count) ∘ entryOfGroup pois.length) =
      (fun g : String × List POIRow => g.2.length) := rfl
  rw [hcomp]
  have h := groupSizes_foldl pois []
  simp only [groupSizes, List.map_nil, List.sum_nil, Nat.zero_add] at h
  exact h

theorem length_poiBreakdown (pois : List POIRow) :
    (poiBreakdownOf pois).length = (buildCategoryMap pois).length := by
  have hperm := List.perm_insertionSort byCountDesc
    ((buildCategoryMap pois).map (entryOfGroup pois.length))
  have h := hperm.length_eq
  rw [List.length_map] at h
  exact h

/-- The rows a category map holds under a given key (the first entry
with that key; insertion keeps keys unique, so it is the entry). -/
def groupOf : List (String × List POIRow) → String → List POIRow
  | [], _ => []
  | g :: rest, k => if g.1 = k then g.2 else groupOf rest k

theorem groupOf_insertPOI (m : List (String × List POIRow)) (p : POIRow) (k : String) :
    groupOf (insertPOI m p) k =
      groupOf m k ++ (if keyOf p.category = k then [p] else []) := by
  induction m with
  | nil =>
    by_cases h : keyOf p.category = k <;> simp [insertPOI, groupOf, h]
  | cons g rest ih =>
    obtain ⟨ka, ps⟩ := g
    by_cases h1 : ka = keyOf p.category
    · simp only [insertPOI, if_pos h1]
      by_cases h2 : ka = k
      · have hc : keyOf p.category = k := h1.symm.trans h2
        simp [groupOf, h2, hc]
      · have hc : ¬ keyOf p.category = k := fun hh => h2 (h1.trans hh)
        simp [groupOf, h2, hc]
    · simp only [insertPOI, if_neg h1]
      by_cases h2 : ka = k
      · have hc : ¬ keyOf p.category = k := fun hh => h1 (h2.trans hh.symm)
        simp [groupOf, h2, hc]
      · simp [groupOf, h2, ih]

theorem groupOf_foldl (l : List POIRow) :
    ∀ m k, groupOf (List.foldl insertPOI m l) k =
      groupOf m k ++ l.filter (fun p => decide (keyOf p.category = k)) := by
  induction l with
  | nil => intro m k; simp
  | cons p t ih =>
    intro m k
    simp only [List.foldl_cons, ih, groupOf_insertPOI, List.filter_cons]
    by_cases h : keyOf p.category = k
    · simp [h]
    · simp [h]

theorem groupOf_buildCategoryMap (pois : List POIRow) (k : String) :
    groupOf (buildCategoryMap pois) k =
      pois.filter (fun p => decide (keyOf p.category = k)) := by
  have h := groupOf_foldl pois [] k
  simpa [buildCategoryMap, groupOf] using h

theorem exists_mem_of_groupOf_ne (m : List (String × List POIRow)) (k : String)
    (h : groupOf m k ≠ []) :
    ∃ g ∈ m, g.1 = k ∧ g.2 = groupOf m k := by
  induction m with
  | nil => exact absurd rfl h
  | cons g rest ih =>
    by_cases h1 : g.1 = k
    · exact ⟨g, List.mem_cons_self _ _, h1, by simp [groupOf, h1]⟩
    · rw [groupOf, if_neg h1] at h
      obtain ⟨g2, hg2, hk, hv⟩ := ih h
      exact ⟨g2, List.mem_cons_of_mem _ hg2, hk, by rw [groupOf, if_neg h1]; exact hv⟩

theorem jsRound_nonneg {x : ℚ} (h : 0 ≤ x) : 0 ≤ jsRound x := by
  unfold jsRound
  rw [Int.floor_nonneg]
  linarith

theorem jsRound_le_of_le {x : ℚ} {n : ℤ} (h : x ≤ n) : jsRound x ≤ n := by
  unfold jsRound
  rw [Int.floor_le_iff]
  have : ((n : ℚ)) + 1 = ((n + 1 : ℤ) : ℚ) := by push_cast; ring
  linarith

theorem toFixed1_nonneg {x : ℚ} (h : 0 ≤ x) : 0 ≤ toFixed1 x := by
  unfold toFixed1
  have h1 : 0 ≤ jsRound (x * 10) := jsRound_nonneg (by linarith)
  have h2 : (0 : ℚ) ≤ (jsRound (x * 10) : ℚ) := by exact_mod_cast h1
  linarith

theorem poiScoreOf_nonneg (t : ℕ) : 0 ≤ poiScoreOf t := by
  unfold poiScoreOf
  have : (0:ℚ) ≤ (t : ℚ) / 100 * 30 := by positivity
  exact le_min (by norm_num) this

theorem poiScoreOf_le (t : ℕ) : poiScoreOf t ≤ 30 := min_le_left _ _

theorem facilityComponent_nonneg (c : ℚ) (f : Option FacilityRow) :
    0 ≤ facilityComponent c f := by
  cases f <;> simp [facilityComponent]

theorem amenityScoreOf_nonneg (p h r : Option FacilityRow) :
    0 ≤ amenityScoreOf p h r := by
  unfold amenityScoreOf
  have h1 := facilityComponent_nonneg 10 p
  have h2 := facilityComponent_nonneg 10 h
  have h3 := facilityComponent_nonneg 5 r
  exact le_min (by norm_num) (by linarith)

theorem amenityScoreOf_le (p h r : Option FacilityRow) :
    amenityScoreOf p h r ≤ 25 := min_le_left _ _

theorem thresholdFtl_nonneg (raw : ℚ) : 0 ≤ thresholdFtl raw := by
  unfold thresholdFtl
  split
  · exact jsRound_nonneg (by linarith)
  · exact le_refl 0

theorem ftlPercentageOf_nonneg (rows : List FtlRow) : 0 ≤ ftlPercentageOf rows := by
  cases rows with
  | nil => simp [ftlPercentageOf]
  | cons r t =>
    rcases har : r.isochrone_area with _ | a
    · simp [ftlPercentageOf, har]
    · simp only [ftlPercentageOf, har]
      split
      · exact thresholdFtl_nonneg _
      · exact le_refl 0

theorem ftlScoreOf_nonneg (p : ℤ) : 0 ≤ ftlScoreOf p := by
  unfold ftlScoreOf
  split
  · norm_num
  · exact le_max_left _ _

theorem ftlScoreOf_le {p : ℤ} (hp : 0 ≤ p) : ftlScoreOf p ≤ 20 := by
  unfold ftlScoreOf
  split
  · norm_num
  · have : (0:ℚ) ≤ (p : ℚ) := by exact_mod_cast hp
    rw [max_le_iff]
    constructor <;> linarith

theorem businessScoreOf_nonneg (t : ℕ) : 0 ≤ businessScoreOf t := by
  unfold businessScoreOf
  have : (0:ℚ) ≤ (t : ℚ) / 20 * 15 := by positivity
  exact le_min (by norm_num) this

theorem businessScoreOf_le (t : ℕ) : businessScoreOf t ≤ 15 := min_le_left _ _

theorem accessibilityScoreOf_nonneg (t : ℕ) : 0 ≤ accessibilityScoreOf t := by
  unfold accessibilityScoreOf
  have : (0:ℚ) ≤ (t : ℚ) / 15 * 10 := by positivity
  exact le_min (by norm_num) this

theorem accessibilityScoreOf_le (t : ℕ) : accessibilityScoreOf t ≤ 10 := min_le_left _ _

theorem developmentScoreOf_bounds (t : ℕ) (p h r : Option FacilityRow)
    (f : ℤ) (hf : 0 ≤ f) (st cc : ℕ) :
    0 ≤ developmentScoreOf t p h r f st cc ∧ developmentScoreOf t p h r f st cc ≤ 100 := by
  unfold developmentScoreOf
  have h1 := poiScoreOf_nonneg t
  have h2 := poiScoreOf_le t
  have h3 := amenityScoreOf_nonneg p h r
  have h4 := amenityScoreOf_le p h r
  have h5 := ftlScoreOf_nonneg f
  have h6 := ftlScoreOf_le hf
  have h7 := businessScoreOf_nonneg st
  have h8 := businessScoreOf_le st
  have h9 := accessibilityScoreOf_nonneg cc
  have h10 := accessibilityScoreOf_le cc
  constructor
  · exact jsRound_nonneg (by linarith)
  · exact jsRound_le_of_le (by push_cast; linarith)

theorem scoreBreakdownOf_bounds (t : ℕ) (p h r : Option FacilityRow)
    (f : ℤ) (st cc : ℕ) :
    (0 ≤ (scoreBreakdownOf t p h r f st cc).poi_score ∧
      (scoreBreakdownOf t p h r f st cc).poi_score ≤ 30) ∧
    (0 ≤ (scoreBreakdownOf t p h r f st cc).amenity_score ∧
      (scoreBreakdownOf t p h r f st cc).amenity_score ≤ 25) ∧
    (0 ≤ (scoreBreakdownOf t p h r f st cc).ftl_score ∧
      (scoreBreakdownOf t p h r f st cc).ftl_score ≤ 20) ∧
    (0 ≤ (scoreBreakdownOf t p h r f st cc).business_score ∧
      (scoreBreakdownOf t p h r f st cc).business_score ≤ 15) ∧
    (0 ≤ (scoreBreakdownOf t p h r f st cc).accessibility_score ∧
      (scoreBreakdownOf t p h r f st cc).accessibility_score ≤ 10) := by
  unfold scoreBreakdownOf
  refine ⟨⟨?_, min_le_left _ _⟩, ⟨?_, min_le_left _ _⟩, ⟨?_, min_le_left _ _⟩,
    ⟨?_, min_le_left _ _⟩, ⟨?_, min_le_left _ _⟩⟩
  · exact le_min (by norm_num) (toFixed1_nonneg (poiScoreOf_nonneg t))
  · exact le_min (by norm_num) (toFixed1_nonneg (amenityScoreOf_nonneg p h r))
  · exact le_min (by norm_num) (toFixed1_nonneg (ftlScoreOf_nonneg f))
  · exact le_min (by norm_num) (toFixed1_nonneg (businessScoreOf_nonneg st))
  · exact le_min (by norm_num) (toFixed1_nonneg (accessibilityScoreOf_nonneg cc))

/-- A store whose parcel exists, whose facility tables are present but
empty, with no POIs and no intersecting tank. -/
def emptyStore : StoreData :=
  { centroid := some (79, 18)
    poisIntersecting := fun _ => []
    policeTable := some []
    hospitalTable := some []
    roadTable := some []
    ftlRows := fun _ => [⟨0, none⟩]
    tanksGeoJSON := fun _ => none }

/-- A request against emptyStore whose isochrone fetch fails on the
network, forcing the fallback buffer. -/
def emptyInput : AnalysisInput :=
  { village := "V"
    surveyNumber := "1"
    mapboxToken := some "t"
    routing := RoutingOutcome.networkFailure
    store := emptyStore }

/-- The result of analyzing emptyInput. -/
def emptyResult : AnalysisResult := assembleResult emptyInput 79 18 none none none

theorem analyzeLocation_emptyInput : analyzeLocation emptyInput = Except.ok emptyResult := rfl

/-- Claim C5: every reported sub-score lies in its documented range and
the composite development score lies in 0..100. -/
theorem claim5_score_ranges (inp : AnalysisInput) (r : AnalysisResult)
    (hok : analyzeLocation inp = Except.ok r) :
    (0 ≤ r.development_score ∧ r.development_score ≤ 100) ∧
    (0 ≤ r.score_breakdown.poi_score ∧ r.score_breakdown.poi_score ≤ 30) ∧
    (0 ≤ r.score_breakdown.amenity_score ∧ r.score_breakdown.amenity_score ≤ 25) ∧
    (0 ≤ r.score_breakdown.ftl_score ∧ r.score_breakdown.ftl_score ≤ 20) ∧
    (0 ≤ r.score_breakdown.business_score ∧ r.score_breakdown.business_score ≤ 15) ∧
    (0 ≤ r.score_breakdown.accessibility_score ∧ r.score_breakdown.accessibility_score ≤ 10) := by
  obtain ⟨lon, lat, tok, police, hospital, road, hc, ht, hp, hh, hr, rfl⟩ :=
    (analyzeLocation_ok_iff inp r).mp hok
  simp only [assembleResult]
  refine ⟨developmentScoreOf_bounds _ _ _ _ _ (ftlPercentageOf_nonneg _) _ _, ?_⟩
  exact scoreBreakdownOf_bounds _ _ _ _ _ _ _

/-- Witness for claim C5 at a concrete succeeding analysis. -/
theorem claim5_witness :
    analyzeLocation emptyInput = Except.ok emptyResult ∧
    0 ≤ emptyResult.development_score ∧ emptyResult.development_score ≤ 100 :=
  ⟨analyzeLocation_emptyInput,
    (claim5_score_ranges emptyInput emptyResult analyzeLocation_emptyInput).1⟩

/-- Claim C6: the counts of poi_breakdown sum to total_pois. -/
theorem claim6_counts_sum (inp : AnalysisInput) (r : AnalysisResult)
    (hok : analyzeLocation inp = Except.ok r) :
    ((r.poi_breakdown.map (fun e => e.count)).sum = r.total_pois) := by
  obtain ⟨lon, lat, tok, police, hospital, road, hc, ht, hp, hh, hr, rfl⟩ :=
    (analyzeLocation_ok_iff inp r).mp hok
  simp only [assembleResult]
  exact sum_counts_poiBreakdown _

/-- Claim C9: a missing centroid row aborts the analysis with the
not-found error and no result object is produced. -/
theorem claim9_not_found (inp : AnalysisInput) (hc : inp.store.centroid = none) :
    analyzeLocation inp = Except.error noMatchMsg ∧
    ∀ r, analyzeLocation inp ≠ Except.ok r := by
  have h1 : analyzeLocation inp = Except.error noMatchMsg := by
    unfold analyzeLocation
    rw [hc]
  exact ⟨h1, fun r hr => by rw [h1] at hr; exact Except.noConfusion hr⟩

/-- A request whose parcel has no matching centroid row. -/
def noRowInput : AnalysisInput :=
  { village := "Nowhere"
    surveyNumber := "0"
    mapboxToken := some "t"
    routing := RoutingOutcome.networkFailure
    store := { emptyStore with centroid := none } }

/-- Witness for claim C9. -/
theorem claim9_witness : analyzeLocation noRowInput = Except.error noMatchMsg :=
  (claim9_not_found noRowInput rfl).1

/-- Claim C4: an absent MAPBOX_TOKEN never yields a successful result,
and with the parcel present the analysis fails with exactly the
configuration-error message, before any isochrone resolution. -/
theorem claim4_missing_token (inp : AnalysisInput) (ht : inp.mapboxToken = none) :
    (∀ r, analyzeLocation inp ≠ Except.ok r) ∧
    (∀ lon lat, inp.store.centroid = some (lon, lat) →
      analyzeLocation inp = Except.error tokenMissingMsg) := by
  constructor
  · intro r hr
    obtain ⟨lon, lat, tok, police, hospital, road, hc, ht2, _⟩ :=
      (analyzeLocation_ok_iff inp r).mp hr
    rw [ht] at ht2
    exact Option.noConfusion ht2
  · intro lon lat hc
    unfold analyzeLocation
    rw [hc, ht]

/-- A request with the routing credential absent. -/
def tokenlessInput : AnalysisInput :=
  { village := "V"
    surveyNumber := "1"
    mapboxToken := none
    routing := RoutingOutcome.networkFailure
    store := emptyStore }

/-- Witness for claim C4. -/
theorem claim4_witness :
    analyzeLocation tokenlessInput = Except.error tokenMissingMsg :=
  (claim4_missing_token tokenlessInput rfl).2 79 18 rfl

/-- Three POI rows, one with a NULL category. -/
def samplePois : List POIRow :=
  [⟨some "Retail", 1, 2⟩, ⟨none, 3, 4⟩, ⟨some "Retail", 5, 6⟩]

/-- A store with the three sample POIs, a police station 2 km away and
the other facility tables empty. -/
def sampleStore : StoreData :=
  { centroid := some (79, 18)
    poisIntersecting := fun _ => samplePois
    policeTable := some [⟨2000, 1, 1⟩]
    hospitalTable := some []
    roadTable := some []
    ftlRows := fun _ => [⟨0, none⟩]
    tanksGeoJSON := fun _ => none }

/-- A request against sampleStore with a failing isochrone fetch. -/
def sampleInput : AnalysisInput :=
  { village := "V"
    surveyNumber := "2"
    mapboxToken := some "t"
    routing := RoutingOutcome.networkFailure
    store := sampleStore }

/-- The result of analyzing sampleInput. -/
def sampleResult : AnalysisResult :=
  assembleResult sampleInput 79 18 (some ⟨2000, 1, 1⟩) none none

theorem analyzeLocation_sampleInput :
    analyzeLocation sampleInput = Except.ok sampleResult := rfl

/-- Witness for claim C6. -/
theorem claim6_witness :
    ((sampleResult.poi_breakdown.map (fun e => e.count)).sum = sampleResult.total_pois) :=
  claim6_counts_sum sampleInput sampleResult analyzeLocation_sampleInput

/-- Claim C7: with zero POIs the breakdown and the supportive subset
are empty — so every percent field that exists is trivially defined
and no division is performed — and the business score is 0. -/
theorem claim7_zero_pois (inp : AnalysisInput) (r : AnalysisResult)
    (hok : analyzeLocation inp = Except.ok r) (h0 : r.total_pois = 0) :
    r.poi_breakdown = [] ∧ r.supportive_businesses = [] ∧
    r.score_breakdown.business_score = 0 := by
  obtain ⟨lon, lat, tok, police, hospital, road, hc, ht, hp, hh, hr, rfl⟩ :=
    (analyzeLocation_ok_iff inp r).mp hok
  simp only [assembleResult] at h0 ⊢
  have hnil := List.length_eq_zero.mp h0
  rw [hnil]
  have hbd : poiBreakdownOf [] = [] := by
    simp [poiBreakdownOf, buildCategoryMap, List.insertionSort]
  have hsb : supportiveBusinessesOf [] = [] := by
    simp [supportiveBusinessesOf]
  rw [hbd, hsb]
  refine ⟨rfl, rfl, ?_⟩
  have hz : businessScoreOf 0 = 0 := by
    unfold businessScoreOf
    norm_num
  have ht1 : toFixed1 0 = 0 := by
    unfold toFixed1 jsRound
    norm_num
  simp [scoreBreakdownOf, hz, ht1]

/-- Witness for claim C7 at an analysis with zero POIs. -/
theorem claim7_witness :
    emptyResult.total_pois = 0 ∧ emptyResult.poi_breakdown = [] ∧
    emptyResult.supportive_businesses = [] ∧
    emptyResult.score_breakdown.business_score = 0 := by
  have h0 : emptyResult.total_pois = 0 := rfl
  exact ⟨h0, claim7_zero_pois emptyInput emptyResult analyzeLocation_emptyInput h0⟩

/-- Claim C10: a POI row with a NULL category is aggregated under the
string key "null": the breakdown holds the entry built from the group
of all rows whose key is "null" (its category field is the string
"null" and its count field is the size of that group by definition of
entryOfGroup), that group is nonempty, and the row still takes part in
the count invariant. -/
theorem claim10_null_category (pois : List POIRow) (p : POIRow)
    (hp : p ∈ pois) (hcat : p.category = none) :
    entryOfGroup pois.length
        ("null", pois.filter (fun q => decide (keyOf q.category = "null"))) ∈
      poiBreakdownOf pois ∧
    0 < (pois.filter (fun q => decide (keyOf q.category = "null"))).length ∧
    ((poiBreakdownOf pois).map (fun e => e.count)).sum = pois.length := by
  have hpf : p ∈ pois.filter (fun q => decide (keyOf q.category = "null")) :=
    List.mem_filter.mpr ⟨hp, by simp [hcat, keyOf]⟩
  have hne : groupOf (buildCategoryMap pois) "null" ≠ [] := by
    rw [groupOf_buildCategoryMap]
    intro hnil
    rw [hnil] at hpf
    exact List.not_mem_nil p hpf
  obtain ⟨g, hgmem, hgk, hgv⟩ := exists_mem_of_groupOf_ne _ _ hne
  have hg : g = ("null", pois.filter (fun q => decide (keyOf q.category = "null"))) := by
    have := groupOf_buildCategoryMap pois "null"
    exact Prod.ext hgk (by rw [hgv, this])
  refine ⟨?_, ?_, sum_counts_poiBreakdown pois⟩
  · rw [← hg]
    have h1 : entryOfGroup pois.length g ∈
        (buildCategoryMap pois).map (entryOfGroup pois.length) :=
      List.mem_map_of_mem _ hgmem
    exact ((List.perm_insertionSort byCountDesc _).mem_iff).mpr h1
  · exact List.length_pos.mpr (fun hnil => by rw [hnil] at hpf; exact List.not_mem_nil p hpf)

/-- Witness for claim C10 on the sample POI list, whose second row has
a NULL category. -/
theorem claim10_witness :
    entryOfGroup samplePois.length
        ("null", samplePois.filter (fun q => decide (keyOf q.category = "null"))) ∈
      poiBreakdownOf samplePois ∧
    0 < (samplePois.filter (fun q => decide (keyOf q.category = "null"))).length ∧
    ((poiBreakdownOf samplePois).map (fun e => e.count)).sum = samplePois.length :=
  claim10_null_category samplePois ⟨none, 3, 4⟩ (by simp [samplePois]) rfl

/-- Claim C2: with a positive isochrone area the reported FTL
percentage is the thresholded rounding of the raw percentage — the
round of the raw value when it exceeds 9, else 0 — and in particular a
raw overlap of exactly 9 percent reports 0 while 9.01 percent reports
9. -/
theorem claim2_ftl_threshold :
    (∀ (i a : ℚ) (t : List FtlRow), 0 < a →
      ftlPercentageOf (⟨i, some a⟩ :: t) = thresholdFtl (i / a * 100)) ∧
    (∀ raw : ℚ, raw > 9 → thresholdFtl raw = jsRound raw) ∧
    (∀ raw : ℚ, ¬ raw > 9 → thresholdFtl raw = 0) ∧
    ftlPercentageOf [⟨9, some 100⟩] = 0 ∧
    ftlPercentageOf [⟨901, some 10000⟩] = 9 := by
  refine ⟨?_, ?_, ?_, ?_, ?_⟩
  · intro i a t ha
    simp only [ftlPercentageOf]
    rw [if_pos ha]
  · intro raw h
    simp [thresholdFtl, h]
  · intro raw h
    simp [thresholdFtl, h]
  · have h9 : (9 : ℚ) / 100 * 100 = 9 := by norm_num
    simp only [ftlPercentageOf]
    rw [if_pos (by norm_num : (0:ℚ) < 100), h9]
    simp [thresholdFtl]
  · have h901 : (901 : ℚ) / 10000 * 100 = 901/100 := by norm_num
    simp only [ftlPercentageOf]
    rw [if_pos (by norm_num : (0:ℚ) < 10000), h901]
    have hgt : (901:ℚ)/100 > 9 := by norm_num
    rw [thresholdFtl, if_pos hgt]
    unfold jsRound
    rw [Int.floor_eq_iff]
    norm_num

/-- Witness for claim C2, instantiating its universal part. -/
theorem claim2_witness :
    (0 : ℚ) < 10000 ∧
    ftlPercentageOf [⟨901, some 10000⟩] = thresholdFtl ((901 : ℚ) / 10000 * 100) :=
  ⟨by norm_num, claim2_ftl_threshold.1 901 10000 [] (by norm_num)⟩

/-- The routing outcomes the fallback handles: a non-success status,
an absent or empty feature list, or a first feature whose geometry
type is neither Polygon nor MultiPolygon (together with the network
failure the source also catches). -/
def badRouting : RoutingOutcome → Prop
  | RoutingOutcome.networkFailure => True
  | RoutingOutcome.response resp =>
      resp.ok = false ∨ resp.features = [] ∨
        ∃ f t, resp.features = f :: t ∧ isPolygonal f.geometry.typeName = false

theorem resolveIsochrone_badRouting (centerGeom : Geom) (o : RoutingOutcome)
    (hbad : badRouting o) :
    resolveIsochrone centerGeom o =
      ⟨fallbackBufferGeom centerGeom FALLBACK_WALK_BUFFER_M, true⟩ := by
  cases o with
  | networkFailure => rfl
  | response resp =>
    rcases hbad with hko | hfe | ⟨f, t, hft, hpoly⟩
    · simp [resolveIsochrone, hko]
    · simp [resolveIsochrone, hfe]
    · cases hok : resp.ok with
      | false => simp [resolveIsochrone, hok]
      | true => simp [resolveIsochrone, hok, hft, hpoly]

/-- Claim C3: under any failing routing outcome a successful analysis
reports used_fallback and its reachability geometry is the buffer of
the fixed 1000 m radius around the parcel center, built in the
projected frame 32643 and transformed back to the geographic frame
4326. -/
theorem claim3_fallback_buffer (inp : AnalysisInput) (r : AnalysisResult)
    (lon lat : ℚ) (hc : inp.store.centroid = some (lon, lat))
    (hbad : badRouting inp.routing)
    (hok : analyzeLocation inp = Except.ok r) :
    r.used_fallback = true ∧
    r.map_data.isochrone_geometry =
      fallbackBufferGeom (Geom.point lon lat) FALLBACK_WALK_BUFFER_M ∧
    FALLBACK_WALK_BUFFER_M = 1000 ∧
    fallbackBufferGeom (Geom.point lon lat) FALLBACK_WALK_BUFFER_M =
      Geom.transform 4326 (Geom.buffer (Geom.transform 32643 (Geom.point lon lat)) 1000) := by
  obtain ⟨lon2, lat2, tok, police, hospital, road, hc2, ht, hp, hh, hr, rfl⟩ :=
    (analyzeLocation_ok_iff inp r).mp hok
  obtain ⟨e1, e2⟩ : lon2 = lon ∧ lat2 = lat := by
    have := hc2.symm.trans hc
    simpa using this
  have hres := resolveIsochrone_badRouting (Geom.point lon2 lat2) inp.routing hbad
  simp only [assembleResult, hres]
  rw [e1, e2]
  exact ⟨trivial, rfl, rfl, rfl⟩

/-- A routing response that carries a Point geometry. -/
def pointRouting : RoutingOutcome :=
  RoutingOutcome.response ⟨true, [⟨Geom.point 79 18⟩]⟩

/-- A request whose routing service answered with a Point geometry. -/
def pointRoutingInput : AnalysisInput :=
  { village := "V"
    surveyNumber := "1"
    mapboxToken := some "t"
    routing := pointRouting
    store := emptyStore }

/-- The result of analyzing pointRoutingInput. -/
def pointRoutingResult : AnalysisResult :=
  assembleResult pointRoutingInput 79 18 none none none

theorem analyzeLocation_pointRoutingInput :
    analyzeLocation pointRoutingInput = Except.ok pointRoutingResult := rfl

/-- Witness for claim C3: the Point-geometry response still yields a
successful analysis, flagged as fallback, over the 1000 m buffer. -/
theorem claim3_witness :
    pointRoutingResult.used_fallback = true ∧
    pointRoutingResult.map_data.isochrone_geometry =
      fallbackBufferGeom (Geom.point 79 18) FALLBACK_WALK_BUFFER_M ∧
    FALLBACK_WALK_BUFFER_M = 1000 ∧
    fallbackBufferGeom (Geom.point 79 18) FALLBACK_WALK_BUFFER_M =
      Geom.transform 4326 (Geom.buffer (Geom.transform 32643 (Geom.point 79 18)) 1000) :=
  claim3_fallback_buffer pointRoutingInput pointRoutingResult 79 18 rfl
    (Or.inr (Or.inr ⟨⟨Geom.point 79 18⟩, [], rfl, rfl⟩))
    analyzeLocation_pointRoutingInput

/-- A request identical to emptyInput except that the police-station
relation is missing from the store. -/
def missingPoliceInput : AnalysisInput :=
  { village := "V"
    surveyNumber := "1"
    mapboxToken := some "t"
    routing := RoutingOutcome.networkFailure
    store := { emptyStore with policeTable := none } }

/-- Counterexample to claim C8 as stated: with the police relation
missing the store rejects the nearest-police query, the service has no
local handler, and the whole analysis fails instead of reporting a
null distance. -/
theorem claim8_counterexample :
    analyzeLocation missingPoliceInput =
      Except.error (relationMissingMsg "ts_policestations") := rfl

/-- Claim C8 (amended): an existing but empty facility table makes the
corresponding lookup answer null without failing, the reported
distance for that kind is null, and an absent facility contributes 0
to the amenity score; only a missing relation aborts the analysis. -/
theorem claim8_empty_table (inp : AnalysisInput) (r : AnalysisResult)
    (hok : analyzeLocation inp = Except.ok r) :
    (inp.store.policeTable = some [] →
      r.distance_to_police = none ∧ r.map_data.nearest_police = none) ∧
    (inp.store.hospitalTable = some [] →
      r.distance_to_hospital = none ∧ r.map_data.nearest_hospital = none) ∧
    (inp.store.roadTable = some [] →
      r.distance_to_main_road = none ∧ r.map_data.nearest_road = none) ∧
    (∀ h rd, amenityScoreOf none h rd =
      min 25 (0 + facilityComponent 10 h + facilityComponent 5 rd)) ∧
    (∀ p rd, amenityScoreOf p none rd =
      min 25 (facilityComponent 10 p + 0 + facilityComponent 5 rd)) ∧
    (∀ p h, amenityScoreOf p h none =
      min 25 (facilityComponent 10 p + facilityComponent 10 h + 0)) := by
  obtain ⟨lon, lat, tok, police, hospital, road, hc, ht, hp, hh, hr, rfl⟩ :=
    (analyzeLocation_ok_iff inp r).mp hok
  refine ⟨?_, ?_, ?_, ?_, ?_, ?_⟩
  · intro hpt
    rw [hpt] at hp
    have : police = none := by
      have h2 : getNearestFeature "ts_policestations" (some []) =
          Except.ok (none : Option FacilityRow) := rfl
      have := hp.symm.trans h2
      simpa using this
    subst this
    exact ⟨rfl, rfl⟩
  · intro hht
    rw [hht] at hh
    have : hospital = none := by
      have h2 : getNearestFeature "ts_hospitals" (some []) =
          Except.ok (none : Option FacilityRow) := rfl
      have := hh.symm.trans h2
      simpa using this
    subst this
    exact ⟨rfl, rfl⟩
  · intro hrt
    rw [hrt] at hr
    have : road = none := by
      have h2 : getNearestFeature "ts_main_roads" (some []) =
          Except.ok (none : Option FacilityRow) := rfl
      have := hr.symm.trans h2
      simpa using this
    subst this
    exact ⟨rfl, rfl⟩
  · intro h rd
    simp [amenityScoreOf, facilityComponent]
  · intro p rd
    simp [amenityScoreOf, facilityComponent]
  · intro p h
    simp [amenityScoreOf, facilityComponent]

/-- Witness for the amended claim C8: all three facility tables of
emptyInput exist and are empty, the analysis succeeds, and every
reported distance is null. -/
theorem claim8_witness :
    emptyResult.distance_to_police = none ∧
    emptyResult.distance_to_hospital = none ∧
    emptyResult.distance_to_main_road = none := by
  have h := claim8_empty_table emptyInput emptyResult analyzeLocation_emptyInput
  exact ⟨(h.1 rfl).1, (h.2.1 rfl).1, (h.2.2.1 rfl).1⟩

theorem foldl_insertPOI_replicate (p : POIRow) (n : ℕ) :
    ∀ ps, List.foldl insertPOI [(keyOf p.category, ps)] (List.replicate n p) =
      [(keyOf p.category, ps ++ List.replicate n p)] := by
  induction n with
  | zero => intro ps; simp
  | succ n ih =>
    intro ps
    rw [List.replicate_succ, List.foldl_cons]
    have hins : insertPOI [(keyOf p.category, ps)] p = [(keyOf p.category, ps ++ [p])] := by
      simp [insertPOI]
    rw [hins, ih]
    simp

theorem buildCategoryMap_replicate (p : POIRow) (n : ℕ) :
    buildCategoryMap (List.replicate (n + 1) p) =
      [(keyOf p.category, List.replicate (n + 1) p)] := by
  rw [buildCategoryMap, List.replicate_succ, List.foldl_cons]
  have hins : insertPOI [] p = [(keyOf p.category, [p])] := rfl
  rw [hins, foldl_insertPOI_replicate]
  simp [List.replicate_succ]

/-- Forty Retail POIs at one spot. -/
def scenarioPois : List POIRow := List.replicate 40 ⟨some "Retail", 18, 79⟩

/-- The store of the specification scenario: 40 POIs, police at 2 km,
hospital at 3 km, main road at 0.5 km, no intersecting tank. -/
def scenarioStore : StoreData :=
  { centroid := some (79, 18)
    poisIntersecting := fun _ => scenarioPois
    policeTable := some [⟨2000, 1, 1⟩]
    hospitalTable := some [⟨3000, 2, 2⟩]
    roadTable := some [⟨500, 3, 3⟩]
    ftlRows := fun _ => [⟨0, none⟩]
    tanksGeoJSON := fun _ => none }

/-- The scenario request, with a successful polygonal isochrone. -/
def scenarioInput : AnalysisInput :=
  { village := "W"
    surveyNumber := "40"
    mapboxToken := some "t"
    routing := RoutingOutcome.response ⟨true, [⟨Geom.polygon [[(0, 0), (1, 0), (1, 1)]]⟩]⟩
    store := scenarioStore }

/-- The result of analyzing scenarioInput. -/
def scenarioResult : AnalysisResult :=
  assembleResult scenarioInput 79 18 (some ⟨2000, 1, 1⟩) (some ⟨3000, 2, 2⟩)
    (some ⟨500, 3, 3⟩)

theorem analyzeLocation_scenarioInput :
    analyzeLocation scenarioInput = Except.ok scenarioResult := rfl

theorem scenario_score_breakdown :
    scenarioResult.score_breakdown =
      scoreBreakdownOf 40 (some ⟨2000, 1, 1⟩) (some ⟨3000, 2, 2⟩) (some ⟨500, 3, 3⟩)
        0 40 1 := rfl

theorem scenario_development_score :
    scenarioResult.development_score =
      developmentScoreOf 40 (some ⟨2000, 1, 1⟩) (some ⟨3000, 2, 2⟩) (some ⟨500, 3, 3⟩)
        0 40 1 := rfl

theorem poiScoreOf_40 : poiScoreOf 40 = 12 := by
  rw [poiScoreOf, show ((40 : ℕ) : ℚ) / 100 * 30 = 12 by norm_num,
    min_eq_right (by norm_num : (12 : ℚ) ≤ 30)]

theorem amenityScoreOf_scenario :
    amenityScoreOf (some ⟨2000, 1, 1⟩) (some ⟨3000, 2, 2⟩) (some ⟨500, 3, 3⟩) = 39/2 := by
  show min 25 (max 0 (10 - 2000/1000) + max 0 (10 - 3000/1000) + max 0 (5 - 500/1000)) = 39/2
  rw [show ((10 : ℚ) - 2000/1000) = 8 by norm_num,
    show ((10 : ℚ) - 3000/1000) = 7 by norm_num,
    show ((5 : ℚ) - 500/1000) = 9/2 by norm_num,
    max_eq_right (by norm_num : (0 : ℚ) ≤ 8),
    max_eq_right (by norm_num : (0 : ℚ) ≤ 7),
    max_eq_right (by norm_num : (0 : ℚ) ≤ 9/2),
    show (8 : ℚ) + 7 + 9/2 = 39/2 by norm_num,
    min_eq_right (by norm_num : (39/2 : ℚ) ≤ 25)]

theorem ftlScoreOf_zero : ftlScoreOf 0 = 20 := by simp [ftlScoreOf]

theorem businessScoreOf_40 : businessScoreOf 40 = 15 := by
  rw [businessScoreOf, show ((40 : ℕ) : ℚ) / 20 * 15 = 30 by norm_num,
    min_eq_left (by norm_num : (15 : ℚ) ≤ 30)]

theorem accessibilityScoreOf_1 : accessibilityScoreOf 1 = 2/3 := by
  rw [accessibilityScoreOf, show ((1 : ℕ) : ℚ) / 15 * 10 = 2/3 by norm_num,
    min_eq_right (by norm_num : (2/3 : ℚ) ≤ 10)]

theorem toFixed1_12 : toFixed1 (12 : ℚ) = 12 := by
  have h : (⌊(12 : ℚ) * 10 + 1/2⌋ : ℤ) = 120 := by
    rw [Int.floor_eq_iff]
    norm_num
  rw [toFixed1, jsRound, h]
  norm_num

theorem toFixed1_39half : toFixed1 ((39 : ℚ)/2) = 39/2 := by
  have h : (⌊(39 : ℚ)/2 * 10 + 1/2⌋ : ℤ) = 195 := by
    rw [Int.floor_eq_iff]
    norm_num
  rw [toFixed1, jsRound, h]
  norm_num

theorem toFixed1_20 : toFixed1 (20 : ℚ) = 20 := by
  have h : (⌊(20 : ℚ) * 10 + 1/2⌋ : ℤ) = 200 := by
    rw [Int.floor_eq_iff]
    norm_num
  rw [toFixed1, jsRound, h]
  norm_num

/-- Claim C1: the compositor computes the five documented sub-score
formulas and rounds their sum into the composite score, and on the
specification scenario (40 POIs, police at 2 km, hospital at 3 km,
road at 0.5 km, no hazard overlap) reports poi_score 12.0,
amenity_score 19.5, ftl_score 20.0 and the rounded composite. -/
theorem claim1_scoring_formulas :
    (∀ (inp : AnalysisInput) (r : AnalysisResult), analyzeLocation inp = Except.ok r →
      r.development_score =
        jsRound (poiScoreOf r.total_pois +
          amenityScoreOf r.map_data.nearest_police r.map_data.nearest_hospital
            r.map_data.nearest_road +
          ftlScoreOf r.ftl_zone_percentage +
          businessScoreOf ((r.supportive_businesses.map (fun b => b.count)).sum) +
          accessibilityScoreOf r.poi_breakdown.length)) ∧
    (∀ t : ℕ, poiScoreOf t = min 30 ((t : ℚ) / 100 * 30)) ∧
    (∀ p h rd : Option FacilityRow, amenityScoreOf p h rd =
      min 25 ((p.elim 0 (fun f => max 0 (10 - f.dist_m / 1000))) +
        (h.elim 0 (fun f => max 0 (10 - f.dist_m / 1000))) +
        (rd.elim 0 (fun f => max 0 (5 - f.dist_m / 1000))))) ∧
    ftlScoreOf 0 = 20 ∧
    (∀ z : ℤ, z ≠ 0 → ftlScoreOf z = max 0 (20 - (z : ℚ) / 5)) ∧
    (∀ st : ℕ, businessScoreOf st = min 15 ((st : ℚ) / 20 * 15)) ∧
    (∀ cc : ℕ, accessibilityScoreOf cc = min 10 ((cc : ℚ) / 15 * 10)) ∧
    analyzeLocation scenarioInput = Except.ok scenarioResult ∧
    scenarioResult.score_breakdown.poi_score = 12 ∧
    scenarioResult.score_breakdown.amenity_score = 39/2 ∧
    scenarioResult.score_breakdown.ftl_score = 20 ∧
    scenarioResult.development_score = 67 := by
  refine ⟨?_, ?_, ?_, ftlScoreOf_zero, ?_, ?_, ?_, analyzeLocation_scenarioInput,
    ?_, ?_, ?_, ?_⟩
  · intro inp r hok
    obtain ⟨lon, lat, tok, police, hospital, road, hc, ht, hp, hh, hr, rfl⟩ :=
      (analyzeLocation_ok_iff inp r).mp hok
    simp only [assembleResult]
    rw [developmentScoreOf, length_poiBreakdown]
  · intro t
    rfl
  · intro p h rd
    cases p <;> cases h <;> cases rd <;>
      simp [amenityScoreOf, facilityComponent, Option.elim]
  · intro z hz
    simp [ftlScoreOf, hz]
  · intro st
    rfl
  · intro cc
    rfl
  · rw [scenario_score_breakdown]
    show min 30 (toFixed1 (poiScoreOf 40)) = 12
    rw [poiScoreOf_40, toFixed1_12, min_eq_right (by norm_num : (12 : ℚ) ≤ 30)]
  · rw [scenario_score_breakdown]
    show min 25 (toFixed1 (amenityScoreOf (some ⟨2000, 1, 1⟩) (some ⟨3000, 2, 2⟩)
      (some ⟨500, 3, 3⟩))) = 39/2
    rw [amenityScoreOf_scenario, toFixed1_39half,
      min_eq_right (by norm_num : (39/2 : ℚ) ≤ 25)]
  · rw [scenario_score_breakdown]
    show min 20 (toFixed1 (ftlScoreOf 0)) = 20
    rw [ftlScoreOf_zero, toFixed1_20, min_self]
  · rw [scenario_development_score, developmentScoreOf, poiScoreOf_40,
      amenityScoreOf_scenario, ftlScoreOf_zero, businessScoreOf_40,
      accessibilityScoreOf_1, jsRound]
    rw [show (12 : ℚ) + 39/2 + 20 + 15 + 2/3 + 1/2 = 406/6 by norm_num]
    rw [Int.floor_eq_iff]
    norm_num

/-- Witness for claim C1, instantiating its universal part on the
scenario analysis. -/
theorem claim1_witness :
    scenarioResult.development_score =
      jsRound (poiScoreOf scenarioResult.total_pois +
        amenityScoreOf scenarioResult.map_data.nearest_police
          scenarioResult.map_data.nearest_hospital scenarioResult.map_data.nearest_road +
        ftlScoreOf scenarioResult.ftl_zone_percentage +
        businessScoreOf ((scenarioResult.supportive_businesses.map (fun b => b.count)).sum) +
        accessibilityScoreOf scenarioResult.poi_breakdown.length) :=
  claim1_scoring_formulas.1 scenarioInput scenarioResult analyzeLocation_scenarioInput
